import Mathlib

/-!
Verification of the CDA_Dev psychrometric/CO2-balance program (src/ash_calc.py)
against its natural-language specification.

The program reads station measurements from a spreadsheet, computes moist-air
properties via the external psychrolib library, and assembles a comparison
report.  The embedding below renders the repository's own functions faithfully
over the reals; the external psychrolib binding is represented by an abstract
record of its four functions used by the program (each possibly-raising call is
an Option), except for GetStandardAtmPressure, whose published closed-form
formula is embedded directly because one claim depends on its value.
Python raises exceptions; a raising call is `none`, a returning call `some`.
-/

noncomputable section

/-- Value held by a spreadsheet cell, as seen through Python's float()
conversion: `num x` stands for any cell value float() converts (numbers,
numeric strings, booleans), `nonNumeric` for any value on which float() raises
ValueError or TypeError (None / empty cell, non-numeric text, dates). -/
inductive CellValue where
  | num (x : ℝ)
  | nonNumeric

/-- Python float(value) applied to a cell value: `some` on success, `none`
when it raises ValueError or TypeError. -/
def pyFloat : CellValue → Option ℝ
  | .num x => some x
  | .nonNumeric => none

/-- Embeds read_excel_data (src/ash_calc.py lines 168-203): reads
num_of_rows cells of column col starting at start_row; a cell whose float()
conversion raises is replaced by 0 (the try/except at lines 193-197).  The
worksheet is modelled as a total function row → column → CellValue. -/
def read_excel_data (sheet : Nat → Nat → CellValue) (col start_row num_of_rows : Nat) :
    List ℝ :=
  (List.range num_of_rows).map fun row =>
    match pyFloat (sheet (row + start_row) col) with
    | some numeric_value => numeric_value
    | none => 0

/-- Embeds get_altitude_and_airflow (src/ash_calc.py lines 206-234): six fixed
cells converted by bare float() calls, with no try/except, so the first
non-convertible cell raises (here: returns none). -/
def get_altitude_and_airflow (sheet : Nat → Nat → CellValue) :
    Option (ℝ × ℝ × ℝ × ℝ × ℝ × ℝ) := do
  let altitude ← pyFloat (sheet 5 3)
  let air_flow ← pyFloat (sheet 6 3)
  let resin_diameter ← pyFloat (sheet 5 7)
  let resin_mass ← pyFloat (sheet 6 7)
  let resin_density ← pyFloat (sheet 7 7)
  let chamber_diameter ← pyFloat (sheet 9 7)
  return (altitude, air_flow, resin_diameter, resin_mass, resin_density, chamber_diameter)

/-- Python's 3-way tuple unpacking `a, b, c = xs` (src/ash_calc.py lines 334
and 347): raises (none) unless the list has exactly three elements. -/
def unpack3 : List ℝ → Option (ℝ × ℝ × ℝ)
  | [a, b, c] => some (a, b, c)
  | _ => none

/-- The psychrolib functions the program calls, as an abstract record: the
library is an external dependency, so its iterative solvers are left
uninterpreted; a call that raises is `none`.  GetDryAirEnthalpy is pure
arithmetic in the library and never raises, so it is total. -/
structure Psychrolib where
  GetTWetBulbFromRelHum : ℝ → ℝ → ℝ → Option ℝ
  CalcPsychrometricsFromTWetBulb : ℝ → ℝ → ℝ → Option (ℝ × ℝ × ℝ × ℝ × ℝ × ℝ × ℝ)
  GetDryAirEnthalpy : ℝ → ℝ
  GetMoistAirDensity : ℝ → ℝ → ℝ → Option ℝ

/-- Embeds calculate_wet_bulb_temperature (src/ash_calc.py lines 18-36):
divides the percent relative humidity by 100 and delegates to psychrolib. -/
def calculate_wet_bulb_temperature (psy : Psychrolib)
    (dry_bulb_temperature relative_humidity pressure : ℝ) : Option ℝ :=
  psy.GetTWetBulbFromRelHum dry_bulb_temperature (relative_humidity / 100) pressure

/-- Embeds calculate_psychrometrics (src/ash_calc.py lines 131-148): a direct
delegation returning the 7-tuple (humidity ratio, dew point, relative
humidity, partial vapor pressure, moist air enthalpy, specific volume,
degree of saturation). -/
def calculate_psychrometrics (psy : Psychrolib)
    (dry_bulb_temperature wet_bulb_temperature pressure : ℝ) :
    Option (ℝ × ℝ × ℝ × ℝ × ℝ × ℝ × ℝ) :=
  psy.CalcPsychrometricsFromTWetBulb dry_bulb_temperature wet_bulb_temperature pressure

/-- Embeds calculate_dry_air_enthalpy (src/ash_calc.py lines 80-93). -/
def calculate_dry_air_enthalpy (psy : Psychrolib) (dry_bulb_temperature : ℝ) : ℝ :=
  psy.GetDryAirEnthalpy dry_bulb_temperature

/-- Embeds calculate_air_density (src/ash_calc.py lines 113-128). -/
def calculate_air_density (psy : Psychrolib)
    (dry_bulb_temperature humidity_ratio pressure : ℝ) : Option ℝ :=
  psy.GetMoistAirDensity dry_bulb_temperature humidity_ratio pressure

/-- Embeds the external psychrolib GetStandardAtmPressure, which the wrapper
calculate_pressure_from_altitude delegates to: the ICAO/ASHRAE
standard-atmosphere relation P = 101325 * (1 - 2.25577e-5 * Z)^5.2559 with no
domain check of any kind.  (For altitudes beyond about 44330 m the Python
math.pow call would raise on a negative base; every statement below stays
where the base is positive, so the real-power model agrees with the code.) -/
def GetStandardAtmPressure (altitude : ℝ) : ℝ :=
  101325 * (1 - 2.25577e-5 * altitude) ^ (5.2559 : ℝ)

/-- Embeds calculate_pressure_from_altitude (src/ash_calc.py lines 151-164):
a direct delegation, with no range check of its own. -/
def calculate_pressure_from_altitude (altitude : ℝ) : ℝ :=
  GetStandardAtmPressure altitude

/-- Embeds calculate_energy_flux (src/ash_calc.py lines 237-251). -/
def calculate_energy_flux (moist_air_enthalpy mass_flow : ℝ) : ℝ :=
  moist_air_enthalpy * mass_flow

/-- Embeds calculate_co2_flow (src/ash_calc.py lines 254-268). -/
def calculate_co2_flow (co2_level air_flow : ℝ) : ℝ :=
  co2_level * air_flow

/-- Embeds calculate_co2_change (src/ash_calc.py lines 271-285). -/
def calculate_co2_change (co2_flow_inlet co2_flow_outlet : ℝ) : ℝ :=
  co2_flow_outlet - co2_flow_inlet

/-- Embeds calculate_co2_change_label (src/ash_calc.py lines 288-303). -/
def calculate_co2_change_label (co2_change : ℝ) : String :=
  if co2_change > 0 then "CO2 Release"
  else if co2_change < 0 then "CO2 Capture"
  else "No Change in CO2"

/-- The resin-bead quantities computed by process_file. -/
structure ResinGeometry where
  single_sphere_surface_area : ℝ
  single_sphere_volume : ℝ
  total_resin_volume : ℝ
  rough_number_of_spheres : ℝ
  total_surface_area : ℝ

/-- Embeds the resin-geometry block of process_file (src/ash_calc.py lines
319-331) verbatim: diameter converted mm→m, single-sphere area pi*d^2 and
volume (4/3)*pi*r^3, total volume 1/(density/mass), count = total volume /
single-sphere volume, total area = count * single-sphere area.  The Python
code raises ZeroDivisionError when density or mass is zero, and likewise when
the diameter is zero (the sphere-count division by the zero single-sphere
volume); process_file's bare except swallows these.  In Lean division by zero
yields 0, and no statement below touches that region. -/
def resin_geometry (resin_diameter resin_mass resin_density : ℝ) : ResinGeometry :=
  let resin_diameter_m := resin_diameter / 1000
  let resin_radius := resin_diameter_m / 2
  let single_sphere_surface_area := Real.pi * resin_diameter_m ^ 2
  let single_sphere_volume := (4 / 3) * Real.pi * resin_radius ^ 3
  let total_resin_volume := 1 / (resin_density / resin_mass)
  let rough_number_of_spheres := total_resin_volume / single_sphere_volume
  { single_sphere_surface_area := single_sphere_surface_area
    single_sphere_volume := single_sphere_volume
    total_resin_volume := total_resin_volume
    rough_number_of_spheres := rough_number_of_spheres
    total_surface_area := rough_number_of_spheres * single_sphere_surface_area }

/-- The chamber quantities computed by process_file. -/
structure ChamberFlow where
  chamber_area : ℝ
  c_area_m2 : ℝ
  air_m3_s : ℝ
  chamber_speed : ℝ

/-- Embeds the chamber block of process_file (src/ash_calc.py lines 372-376)
verbatim: radius = diameter/2, area = pi*r^2 (labelled cm² by the program's
own output), area/10000 → m², air_flow/1000 → m³/s, speed = flow/area. -/
def chamber_flow (chamber_diameter air_flow : ℝ) : ChamberFlow :=
  let c_radius := chamber_diameter / 2
  let chamber_area := Real.pi * c_radius ^ 2
  let c_area_m2 := chamber_area / 10000
  let air_m3_s := air_flow / 1000
  { chamber_area := chamber_area
    c_area_m2 := c_area_m2
    air_m3_s := air_m3_s
    chamber_speed := air_m3_s / c_area_m2 }

/-- Embeds the balance block of process_file (src/ash_calc.py lines 366-368):
mass flow = outlet air density * (air_flow/1000), and the two energy fluxes
from calculate_energy_flux with that single mass flow.  Returned as
(mass_flow, energy_flux_inlet, energy_flux_outlet). -/
def balance (air_density_outlet air_flow moist_air_enthalpy_inlet
    moist_air_enthalpy_outlet : ℝ) : ℝ × ℝ × ℝ :=
  let mass_flow := air_density_outlet * (air_flow / 1000)
  (mass_flow, calculate_energy_flux moist_air_enthalpy_inlet mass_flow,
    calculate_energy_flux moist_air_enthalpy_outlet mass_flow)

/-- Every numeric quantity process_file computes and prints into its output
message (src/ash_calc.py lines 306-454).  The program only formats these into
a text widget; the formatting itself carries no further computation.
`vapor_pressure_inlet` and `vapor_pressure_outlet` hold the partial vapor
pressure values of the source. -/
structure Report where
  altitude : ℝ
  air_flow : ℝ
  pressure : ℝ
  geometry : ResinGeometry
  chamber_area : ℝ
  c_area_m2 : ℝ
  air_m3_s : ℝ
  chamber_speed : ℝ
  dry_bulb_temperature_inlet : ℝ
  relative_humidity_inlet : ℝ
  co2_level_inlet : ℝ
  wet_bulb_temperature_inlet : ℝ
  humidity_ratio_inlet : ℝ
  dew_point_temperature_inlet : ℝ
  calc_relative_humidity_inlet : ℝ
  vapor_pressure_inlet : ℝ
  moist_air_enthalpy_inlet : ℝ
  specific_volume_inlet : ℝ
  degree_of_saturation_inlet : ℝ
  dry_air_enthalpy_inlet : ℝ
  air_density_inlet : ℝ
  co2_flow_inlet : ℝ
  dry_bulb_temperature_outlet : ℝ
  relative_humidity_outlet : ℝ
  co2_level_outlet : ℝ
  wet_bulb_temperature_outlet : ℝ
  humidity_ratio_outlet : ℝ
  dew_point_temperature_outlet : ℝ
  calc_relative_humidity_outlet : ℝ
  vapor_pressure_outlet : ℝ
  moist_air_enthalpy_outlet : ℝ
  specific_volume_outlet : ℝ
  degree_of_saturation_outlet : ℝ
  dry_air_enthalpy_outlet : ℝ
  air_density_outlet : ℝ
  co2_flow_outlet : ℝ
  co2_change : ℝ
  co2_change_label : String
  mass_flow : ℝ
  energy_flux_inlet : ℝ
  energy_flux_outlet : ℝ

/-- Embeds process_file (src/ash_calc.py lines 306-456).  The whole body sits
inside `try: ... except: pass`, so any raising sub-step makes the function
silently produce nothing: here, `none`.  The steps and their order follow the
source; the final output-string formatting is replaced by the Report record of
every value it formats. -/
def process_file (psy : Psychrolib) (sheet : Nat → Nat → CellValue) : Option Report :=
  match get_altitude_and_airflow sheet with
  | none => none
  | some (altitude, air_flow, resin_diameter, resin_mass, resin_density, chamber_diameter) =>
  let pressure := calculate_pressure_from_altitude altitude
  let geometry := resin_geometry resin_diameter resin_mass resin_density
  match unpack3 (read_excel_data sheet 3 8 3) with
  | none => none
  | some (dry_bulb_temperature_inlet, relative_humidity_inlet, co2_level_inlet) =>
  match calculate_wet_bulb_temperature psy dry_bulb_temperature_inlet relative_humidity_inlet pressure with
  | none => none
  | some wet_bulb_temperature_inlet =>
  match calculate_psychrometrics psy dry_bulb_temperature_inlet wet_bulb_temperature_inlet pressure with
  | none => none
  | some (humidity_ratio_inlet, dew_point_temperature_inlet, calc_relative_humidity_inlet, vapor_pressure_inlet, moist_air_enthalpy_inlet, specific_volume_inlet, degree_of_saturation_inlet) =>
  let dry_air_enthalpy_inlet := calculate_dry_air_enthalpy psy dry_bulb_temperature_inlet
  match calculate_air_density psy dry_bulb_temperature_inlet humidity_ratio_inlet pressure with
  | none => none
  | some air_density_inlet =>
  let co2_flow_inlet := calculate_co2_flow co2_level_inlet air_flow
  match unpack3 (read_excel_data sheet 3 12 3) with
  | none => none
  | some (dry_bulb_temperature_outlet, relative_humidity_outlet, co2_level_outlet) =>
  match calculate_wet_bulb_temperature psy dry_bulb_temperature_outlet relative_humidity_outlet pressure with
  | none => none
  | some wet_bulb_temperature_outlet =>
  match calculate_psychrometrics psy dry_bulb_temperature_outlet wet_bulb_temperature_outlet pressure with
  | none => none
  | some (humidity_ratio_outlet, dew_point_temperature_outlet, calc_relative_humidity_outlet, vapor_pressure_outlet, moist_air_enthalpy_outlet, specific_volume_outlet, degree_of_saturation_outlet) =>
  let dry_air_enthalpy_outlet := calculate_dry_air_enthalpy psy dry_bulb_temperature_outlet
  match calculate_air_density psy dry_bulb_temperature_outlet humidity_ratio_outlet pressure with
  | none => none
  | some air_density_outlet =>
  let co2_flow_outlet := calculate_co2_flow co2_level_outlet air_flow
  let co2_change := calculate_co2_change co2_flow_inlet co2_flow_outlet
  let co2_change_label := calculate_co2_change_label co2_change
  let b := balance air_density_outlet air_flow moist_air_enthalpy_inlet moist_air_enthalpy_outlet
  let cf := chamber_flow chamber_diameter air_flow
  some
    { altitude := altitude
      air_flow := air_flow
      pressure := pressure
      geometry := geometry
      chamber_area := cf.chamber_area
      c_area_m2 := cf.c_area_m2
      air_m3_s := cf.air_m3_s
      chamber_speed := cf.chamber_speed
      dry_bulb_temperature_inlet := dry_bulb_temperature_inlet
      relative_humidity_inlet := relative_humidity_inlet
      co2_level_inlet := co2_level_inlet
      wet_bulb_temperature_inlet := wet_bulb_temperature_inlet
      humidity_ratio_inlet := humidity_ratio_inlet
      dew_point_temperature_inlet := dew_point_temperature_inlet
      calc_relative_humidity_inlet := calc_relative_humidity_inlet
      vapor_pressure_inlet := vapor_pressure_inlet
      moist_air_enthalpy_inlet := moist_air_enthalpy_inlet
      specific_volume_inlet := specific_volume_inlet
      degree_of_saturation_inlet := degree_of_saturation_inlet
      dry_air_enthalpy_inlet := dry_air_enthalpy_inlet
      air_density_inlet := air_density_inlet
      co2_flow_inlet := co2_flow_inlet
      dry_bulb_temperature_outlet := dry_bulb_temperature_outlet
      relative_humidity_outlet := relative_humidity_outlet
      co2_level_outlet := co2_level_outlet
      wet_bulb_temperature_outlet := wet_bulb_temperature_outlet
      humidity_ratio_outlet := humidity_ratio_outlet
      dew_point_temperature_outlet := dew_point_temperature_outlet
      calc_relative_humidity_outlet := calc_relative_humidity_outlet
      vapor_pressure_outlet := vapor_pressure_outlet
      moist_air_enthalpy_outlet := moist_air_enthalpy_outlet
      specific_volume_outlet := specific_volume_outlet
      degree_of_saturation_outlet := degree_of_saturation_outlet
      dry_air_enthalpy_outlet := dry_air_enthalpy_outlet
      air_density_outlet := air_density_outlet
      co2_flow_outlet := co2_flow_outlet
      co2_change := co2_change
      co2_change_label := co2_change_label
      mass_flow := b.1
      energy_flux_inlet := b.2.1
      energy_flux_outlet := b.2.2 }

/-- Modelled from the spec: the error kinds of section 7.  None of them exists
in the source code, whose only failure channel is a raised-then-swallowed
Python exception; they are needed to state the spec's claims about typed
failures and for the spec-modelled WetBulbSolver. -/
inductive EngineError where
  | AltitudeOutOfRange
  | TemperatureOutOfRange
  | InvalidInput
  | ConvergenceFailure

/-- Modelled from the spec: section 4.3's humidity ratio from vapor pressure,
W = 0.621945 * p_v / (P - p_v). -/
def humRatioFromVapPres (p_v P : ℝ) : ℝ :=
  0.621945 * p_v / (P - p_v)

/-- Modelled from the spec: section 4.3's humidity ratio from relative
humidity, via p_v = (RH/100) * saturation_vapor_pressure(T_db).  The
saturation model (section 4.2) is passed in as the function svp. -/
def humRatioFromRelHum (svp : ℝ → ℝ) (T_db RH_percent P : ℝ) : ℝ :=
  humRatioFromVapPres (RH_percent / 100 * svp T_db) P

/-- Modelled from the spec: the adiabatic-saturation humidity ratio of section
4.3, obtained from the enthalpy balance of section 4.5 between dry air, liquid
water at T_wb (specific heat 4.186 kJ/kg K) and saturated air at T_wb:
W = ((2501 - 2.326*T_wb) * W_s(T_wb) - 1.006*(T_db - T_wb)) /
(2501 + 1.86*T_db - 4.186*T_wb), the published ASHRAE relation. -/
def adiabaticSatHumRatio (svp : ℝ → ℝ) (T_db T_wb P : ℝ) : ℝ :=
  ((2501 - 2.326 * T_wb) * humRatioFromVapPres (svp T_wb) P - 1.006 * (T_db - T_wb)) /
    (2501 + 1.86 * T_db - 4.186 * T_wb)

/-- Modelled from the spec: the bracketed bisection of section 4.3, fuel-bounded
by the iteration cap; exceeding the cap fails with ConvergenceFailure, and a
bracket of width at most the 1e-4 temperature tolerance returns its midpoint. -/
def wbBisect (residual : ℝ → ℝ) : Nat → ℝ → ℝ → Except EngineError ℝ
  | 0, _, _ => .error .ConvergenceFailure
  | fuel + 1, lo, hi =>
    if hi - lo ≤ 1e-4 then .ok ((lo + hi) / 2)
    else
      let mid := (lo + hi) / 2
      if 0 < residual mid then wbBisect residual fuel lo mid
      else wbBisect residual fuel mid hi

/-- Modelled from the spec: section 4.3's WetBulbSolver.  The wet-bulb solver
the program actually runs lives in the external psychrolib dependency, not
under src/ (src/ash_calc.py holds only the thin wrapper
calculate_wet_bulb_temperature), so it is modelled from the spec's words:
at RH = 100% the solver short-circuits and returns T_db exactly with zero
iterations; otherwise it runs bracketed bisection on the adiabatic-saturation
residual with iteration cap 100.  The spec's dew-point lower bound for the
bracket is rendered as T_db - 100, a bound below any physical evaporative
depression; only the RH = 100 branch is exercised by the claims. -/
def wet_bulb (svp : ℝ → ℝ) (T_db RH_percent P : ℝ) : Except EngineError ℝ :=
  if RH_percent = 100 then .ok T_db
  else
    let W := humRatioFromRelHum svp T_db RH_percent P
    wbBisect (fun t => adiabaticSatHumRatio svp T_db t P - W) 100 (T_db - 100) T_db

/-- A concrete saturation-pressure stand-in used only to instantiate universally
quantified statements at a specific input. -/
def svpConst : ℝ → ℝ :=
  fun _ => 3000

/-- A concrete Psychrolib record used only to instantiate universally
quantified statements about process_file at a specific input; the statements
it witnesses hold for every Psychrolib record. -/
def psyArb : Psychrolib where
  GetTWetBulbFromRelHum := fun _ _ _ => none
  CalcPsychrometricsFromTWetBulb := fun _ _ _ => none
  GetDryAirEnthalpy := fun _ => 0
  GetMoistAirDensity := fun _ _ _ => none

/-- A concrete Psychrolib record on which every call returns, used only to
drive process_file through its full success path in witnesses. -/
def psyOk : Psychrolib where
  GetTWetBulbFromRelHum := fun T _ _ => some T
  CalcPsychrometricsFromTWetBulb := fun _ _ _ => some (1, 2, 3, 4, 5, 6, 7)
  GetDryAirEnthalpy := fun T => 1006 * T
  GetMoistAirDensity := fun _ _ _ => some 2

/-- A worksheet whose altitude cell (row 5, column 3) and inlet dry-bulb cell
(row 8, column 3) hold non-numeric values; rows 9 and 10 of column 3 hold 50
and 400; every other cell holds 1. -/
def sheetBad : Nat → Nat → CellValue := fun row col =>
  if row = 5 ∧ col = 3 then .nonNumeric
  else if row = 8 ∧ col = 3 then .nonNumeric
  else if row = 9 ∧ col = 3 then .num 50
  else if row = 10 ∧ col = 3 then .num 400
  else .num 1

/-- A worksheet on which every cell holds the number 1, so every float()
conversion succeeds. -/
def sheetOk : Nat → Nat → CellValue := fun _ _ => .num 1

/-- Claim C3 (amended): calculate_pressure_from_altitude applies no range
check: for every altitude at which psychrolib's formula evaluates — any
altitude up to 44330 m, where the base term 1 - 2.25577e-5 * altitude is
still positive (beyond that Python's math.pow raises on a negative base, an
exception that is not an AltitudeOutOfRange either) — it returns the strictly
positive ICAO/ASHRAE standard-atmosphere pressure
101325 * (1 - 2.25577e-5 * altitude)^5.2559, sea level giving exactly
101325 Pa.  This includes every altitude outside the claimed
[-5000, 11000] m domain up to 44330 m; no AltitudeOutOfRange failure exists
anywhere in the program. -/
theorem pressure_no_range_check (altitude : ℝ) (h : altitude ≤ 44330) :
    calculate_pressure_from_altitude altitude
      = 101325 * (1 - 2.25577e-5 * altitude) ^ (5.2559 : ℝ) ∧
    0 < calculate_pressure_from_altitude altitude ∧
    calculate_pressure_from_altitude 0 = 101325 := by
  refine ⟨rfl, ?_, ?_⟩
  · have hbase : 0 < 1 - 2.25577e-5 * altitude := by nlinarith
    have hpow := Real.rpow_pos_of_pos hbase 5.2559
    simp only [calculate_pressure_from_altitude, GetStandardAtmPressure]
    exact mul_pos (by norm_num) hpow
  · simp only [calculate_pressure_from_altitude, GetStandardAtmPressure]
    rw [show (1 - 2.25577e-5 * (0 : ℝ)) = 1 by norm_num, Real.one_rpow, mul_one]

/-- Claim C3 (witness): the amended theorem instantiated at 20000 m, an
altitude far outside the claimed [-5000, 11000] m domain, where the function
still returns a positive numeric pressure. -/
theorem pressure_no_range_check_witness :
    ((20000 : ℝ) ≤ 44330) ∧
    (calculate_pressure_from_altitude 20000
        = 101325 * (1 - 2.25577e-5 * (20000 : ℝ)) ^ (5.2559 : ℝ) ∧
      0 < calculate_pressure_from_altitude 20000 ∧
      calculate_pressure_from_altitude 0 = 101325) :=
  ⟨by norm_num, pressure_no_range_check 20000 (by norm_num)⟩

/-- Claim C3 (counterexample): at altitude 12000 m, outside the claimed
[-5000, 11000] m domain, calculate_pressure_from_altitude does not fail:
it returns the strictly positive number 101325 * (1 - 2.25577e-5*12000)^5.2559.
Its return type carries no error at all, refuting "fails with
AltitudeOutOfRange and never returns a numeric pressure". -/
theorem pressure_out_of_range_counterexample :
    calculate_pressure_from_altitude 12000
      = 101325 * (1 - 2.25577e-5 * (12000 : ℝ)) ^ (5.2559 : ℝ) ∧
    0 < calculate_pressure_from_altitude 12000 := by
  refine ⟨rfl, ?_⟩
  have hbase : (0 : ℝ) < 1 - 2.25577e-5 * 12000 := by norm_num
  have hpow := Real.rpow_pos_of_pos hbase 5.2559
  simp only [calculate_pressure_from_altitude, GetStandardAtmPressure]
  exact mul_pos (by norm_num) hpow

/-- Claim C5: the CO2 change equals outlet flow minus inlet flow, and
calculate_co2_change_label classifies it by sign: strictly positive gives
"CO2 Release", strictly negative "CO2 Capture", exactly zero
"No Change in CO2". -/
theorem co2_change_sign_matches_label (co2_flow_inlet co2_flow_outlet : ℝ) :
    calculate_co2_change co2_flow_inlet co2_flow_outlet
      = co2_flow_outlet - co2_flow_inlet ∧
    (0 < calculate_co2_change co2_flow_inlet co2_flow_outlet →
      calculate_co2_change_label (calculate_co2_change co2_flow_inlet co2_flow_outlet)
        = "CO2 Release") ∧
    (calculate_co2_change co2_flow_inlet co2_flow_outlet < 0 →
      calculate_co2_change_label (calculate_co2_change co2_flow_inlet co2_flow_outlet)
        = "CO2 Capture") ∧
    (calculate_co2_change co2_flow_inlet co2_flow_outlet = 0 →
      calculate_co2_change_label (calculate_co2_change co2_flow_inlet co2_flow_outlet)
        = "No Change in CO2") := by
  refine ⟨rfl, ?_, ?_, ?_⟩ <;> intro h
  · rw [calculate_co2_change_label, if_pos h]
  · rw [calculate_co2_change_label, if_neg (by linarith), if_pos h]
  · rw [calculate_co2_change_label, if_neg (by rw [h]; exact lt_irrefl 0),
      if_neg (by rw [h]; exact lt_irrefl 0)]

/-- Claim C5 (witness): the sign/label correspondence at inlet flow 1 and
outlet flow 3, a strictly positive change labelled "CO2 Release". -/
theorem co2_change_sign_matches_label_witness :
    0 < calculate_co2_change 1 3 ∧
    calculate_co2_change_label (calculate_co2_change 1 3) = "CO2 Release" :=
  ⟨by norm_num [calculate_co2_change],
    (co2_change_sign_matches_label 1 3).2.1 (by norm_num [calculate_co2_change])⟩

/-- Claim C6: with resin bead diameter 1 mm, mass 1 kg and density 1000 kg/m³,
the geometry block yields total resin volume 0.001 m³, single-bead volume
(4/3)*pi*0.0005³ (diameter converted mm→m), and bead count
0.001 / ((4/3)*pi*0.0005³). -/
theorem resin_geometry_unit_example :
    (resin_geometry 1 1 1000).total_resin_volume = 0.001 ∧
    (resin_geometry 1 1 1000).single_sphere_volume
      = 4 / 3 * Real.pi * (0.0005 : ℝ) ^ 3 ∧
    (resin_geometry 1 1 1000).rough_number_of_spheres
      = 0.001 / (4 / 3 * Real.pi * (0.0005 : ℝ) ^ 3) := by
  have hr : ((1 : ℝ) / 1000) / 2 = 0.0005 := by norm_num
  have hv : ((1 : ℝ) / (1000 / 1)) = 0.001 := by norm_num
  refine ⟨?_, ?_, ?_⟩
  · simp only [resin_geometry]; exact hv
  · simp only [resin_geometry]; rw [hr]
  · simp only [resin_geometry]; rw [hr, hv]

/-- Claim C7 (amended): the chamber diameter is interpreted in centimetres,
not millimetres: the gas velocity equals the airflow converted L/s→m³/s
divided by the cross-sectional area pi*r² computed from the diameter
converted cm→m (the source divides the pi*r² area by 10000, a cm²→m²
conversion, and prints the diameter times 10 as millimetres). -/
theorem chamber_speed_cm_formula (chamber_diameter air_flow : ℝ) :
    (chamber_flow chamber_diameter air_flow).chamber_speed
      = (air_flow / 1000) / (Real.pi * (chamber_diameter / 200) ^ 2) ∧
    (chamber_flow chamber_diameter air_flow).c_area_m2
      = Real.pi * (chamber_diameter / 200) ^ 2 ∧
    (chamber_flow chamber_diameter air_flow).air_m3_s = air_flow / 1000 := by
  have harea : Real.pi * (chamber_diameter / 2) ^ 2 / 10000
      = Real.pi * (chamber_diameter / 200) ^ 2 := by ring
  exact ⟨by simp only [chamber_flow]; rw [harea], by simp only [chamber_flow]; rw [harea], rfl⟩

/-- Claim C7 (counterexample): with chamber diameter 2 and airflow 1000 L/s,
the program's gas velocity is 1/(pi/10000) m/s, not the 1/(pi*(2/2000)²) m/s
that the claimed mm→m conversion would give: the two differ by a factor of
100. -/
theorem chamber_speed_mm_counterexample :
    (chamber_flow 2 1000).chamber_speed
      ≠ ((1000 : ℝ) / 1000) / (Real.pi * ((2 : ℝ) / 2000) ^ 2) := by
  simp only [chamber_flow]
  intro h
  rw [div_eq_div_iff (by positivity) (by positivity)] at h
  nlinarith [Real.pi_pos, Real.pi_ne_zero]

/-- Claim C9 (amended): the geometry computation performs no input validation
and never fails with InvalidInput: for a strictly negative bead diameter
(with positive mass and density) it still returns numeric derived-geometry
values — the total resin volume mass/density and a strictly negative bead
count.  (A zero diameter, density or mass instead raises a ZeroDivisionError
that process_file's bare except silently swallows — again not an
InvalidInput.) -/
theorem resin_geometry_no_validation (resin_diameter resin_mass resin_density : ℝ)
    (hd : resin_diameter < 0) (hm : 0 < resin_mass) (hρ : 0 < resin_density) :
    (resin_geometry resin_diameter resin_mass resin_density).total_resin_volume
      = resin_mass / resin_density ∧
    (resin_geometry resin_diameter resin_mass resin_density).rough_number_of_spheres
      < 0 := by
  have htrv : (1 : ℝ) / (resin_density / resin_mass) = resin_mass / resin_density :=
    one_div_div resin_density resin_mass
  constructor
  · simp only [resin_geometry]; exact htrv
  · simp only [resin_geometry]
    have h1 : resin_diameter / 1000 / 2 < 0 := by linarith
    have h3 : (resin_diameter / 1000 / 2) ^ 3 < 0 := Odd.pow_neg ⟨1, by norm_num⟩ h1
    have hssv : 4 / 3 * Real.pi * (resin_diameter / 1000 / 2) ^ 3 < 0 := by
      nlinarith [Real.pi_pos]
    have hpos : 0 < (1 : ℝ) / (resin_density / resin_mass) := by
      rw [htrv]; positivity
    exact div_neg_of_pos_of_neg hpos hssv

/-- Claim C9 (witness): the amended theorem instantiated at diameter -2 mm,
mass 1 kg, density 1000 kg/m³. -/
theorem resin_geometry_no_validation_witness :
    ((-2 : ℝ) < 0 ∧ (0 : ℝ) < 1 ∧ (0 : ℝ) < 1000) ∧
    ((resin_geometry (-2) 1 1000).total_resin_volume = 1 / 1000 ∧
      (resin_geometry (-2) 1 1000).rough_number_of_spheres < 0) :=
  ⟨⟨by norm_num, by norm_num, by norm_num⟩,
    resin_geometry_no_validation (-2) 1 1000 (by norm_num) (by norm_num) (by norm_num)⟩

/-- Claim C9 (counterexample): at bead diameter -1 mm, mass 1 kg, density
1000 kg/m³ — a non-positive diameter — the geometry computation does not fail
with InvalidInput (its type has no error channel): it returns the numeric
total volume 0.001 m³ and a strictly negative bead count. -/
theorem resin_geometry_negative_diameter_counterexample :
    (resin_geometry (-1) 1 1000).total_resin_volume = 0.001 ∧
    (resin_geometry (-1) 1 1000).rough_number_of_spheres < 0 := by
  constructor
  · show (1 : ℝ) / (1000 / 1) = 0.001
    norm_num
  · show (1 : ℝ) / (1000 / 1) / (4 / 3 * Real.pi * ((-1 : ℝ) / 1000 / 2) ^ 3) < 0
    have h1 : (-1 : ℝ) / 1000 / 2 < 0 := by norm_num
    have h3 : ((-1 : ℝ) / 1000 / 2) ^ 3 < 0 := Odd.pow_neg ⟨1, by norm_num⟩ h1
    have hssv : 4 / 3 * Real.pi * ((-1 : ℝ) / 1000 / 2) ^ 3 < 0 := by
      nlinarith [Real.pi_pos]
    exact div_neg_of_pos_of_neg (by norm_num) hssv

/-- Claim C10: for every requested row count, read_excel_data returns a list
of exactly that many numeric elements, one per row in row order, and each
element is float(cell) when the cell converts and 0 otherwise; the function
is total, so no cell content makes it raise. -/
theorem read_excel_data_length_and_elements (sheet : Nat → Nat → CellValue)
    (col start_row num_of_rows i : Nat) (h : i < num_of_rows) :
    (read_excel_data sheet col start_row num_of_rows).length = num_of_rows ∧
    (read_excel_data sheet col start_row num_of_rows)[i]?
      = some (match pyFloat (sheet (i + start_row) col) with
              | some numeric_value => numeric_value
              | none => 0) := by
  constructor
  · simp only [read_excel_data]
    rw [List.length_map, List.length_range]
  · simp only [read_excel_data]
    rw [List.getElem?_map, List.getElem?_range h, Option.map_some']

/-- Claim C10 (witness): on the all-numeric worksheet, the three inlet rows
produce a 3-element list whose first element is the cell value 1. -/
theorem read_excel_data_length_and_elements_witness :
    (0 : Nat) < 3 ∧
    ((read_excel_data sheetOk 3 8 3).length = 3 ∧
      (read_excel_data sheetOk 3 8 3)[0]? = some 1) :=
  ⟨by norm_num, read_excel_data_length_and_elements sheetOk 3 8 3 0 (by norm_num)⟩

/-- Claim C1 (amended): a non-numeric source cell is silently coerced to the
numeric value 0 in the list read_excel_data returns; the function signals no
InvalidInput (its return type has no error channel at all). -/
theorem read_excel_data_nonnumeric_coerced (sheet : Nat → Nat → CellValue)
    (col start_row num_of_rows i : Nat) (h : i < num_of_rows)
    (hc : pyFloat (sheet (i + start_row) col) = none) :
    (read_excel_data sheet col start_row num_of_rows)[i]? = some 0 := by
  simp only [read_excel_data]
  rw [List.getElem?_map, List.getElem?_range h, Option.map_some', hc]

/-- Claim C1 (witness): the amended theorem at the worksheet whose cell
(8, 3) is non-numeric: the first returned element is 0. -/
theorem read_excel_data_nonnumeric_coerced_witness :
    ((0 : Nat) < 3 ∧ pyFloat (sheetBad 8 3) = none) ∧
    (read_excel_data sheetBad 3 8 3)[0]? = some 0 :=
  ⟨⟨by norm_num, rfl⟩,
    read_excel_data_nonnumeric_coerced sheetBad 3 8 3 0 (by norm_num) rfl⟩

/-- Claim C1 (counterexample): reading rows 8-10 of column 3 from a worksheet
whose cell (8, 3) is non-numeric yields [0, 50, 400]: the non-numeric cell is
coerced to 0 in the returned data and no InvalidInput error is produced,
refuting the claim as stated. -/
theorem read_excel_data_nonnumeric_counterexample :
    read_excel_data sheetBad 3 8 3 = [0, 50, 400] := rfl

/-- Claim C2 (amended): no typed result exists anywhere in the program;
process_file wraps its whole body in a bare except that discards every
failure: whenever any of its nine raising sub-steps fails — the geometry-cell
reads, either row unpacking, either wet-bulb call, either psychrometrics
call, or either density call — process_file returns the information-free
none: no error kind, no offending field.  Each conjunct below fixes a
successful prefix of the pipeline and lets the next sub-step fail. -/
theorem process_file_discards_failures (psy : Psychrolib)
    (sheet : Nat → Nat → CellValue) :
    (get_altitude_and_airflow sheet = none → process_file psy sheet = none) ∧
    (∀ altitude air_flow resin_diameter resin_mass resin_density chamber_diameter,
      get_altitude_and_airflow sheet
          = some (altitude, air_flow, resin_diameter, resin_mass,
              resin_density, chamber_diameter) →
      (unpack3 (read_excel_data sheet 3 8 3) = none → process_file psy sheet = none) ∧
      (∀ t1 rh1 c1,
        unpack3 (read_excel_data sheet 3 8 3) = some (t1, rh1, c1) →
        (calculate_wet_bulb_temperature psy t1 rh1
            (calculate_pressure_from_altitude altitude) = none →
          process_file psy sheet = none) ∧
        (∀ w1,
          calculate_wet_bulb_temperature psy t1 rh1
              (calculate_pressure_from_altitude altitude) = some w1 →
          (calculate_psychrometrics psy t1 w1
              (calculate_pressure_from_altitude altitude) = none →
            process_file psy sheet = none) ∧
          (∀ hr1 dp1 cr1 vp1 me1 sv1 ds1,
            calculate_psychrometrics psy t1 w1
                (calculate_pressure_from_altitude altitude)
              = some (hr1, dp1, cr1, vp1, me1, sv1, ds1) →
            (calculate_air_density psy t1 hr1
                (calculate_pressure_from_altitude altitude) = none →
              process_file psy sheet = none) ∧
            (∀ d1,
              calculate_air_density psy t1 hr1
                  (calculate_pressure_from_altitude altitude) = some d1 →
              (unpack3 (read_excel_data sheet 3 12 3) = none →
                process_file psy sheet = none) ∧
              (∀ t2 rh2 c2,
                unpack3 (read_excel_data sheet 3 12 3) = some (t2, rh2, c2) →
                (calculate_wet_bulb_temperature psy t2 rh2
                    (calculate_pressure_from_altitude altitude) = none →
                  process_file psy sheet = none) ∧
                (∀ w2,
                  calculate_wet_bulb_temperature psy t2 rh2
                      (calculate_pressure_from_altitude altitude) = some w2 →
                  (calculate_psychrometrics psy t2 w2
                      (calculate_pressure_from_altitude altitude) = none →
                    process_file psy sheet = none) ∧
                  (∀ hr2 dp2 cr2 vp2 me2 sv2 ds2,
                    calculate_psychrometrics psy t2 w2
                        (calculate_pressure_from_altitude altitude)
                      = some (hr2, dp2, cr2, vp2, me2, sv2, ds2) →
                    calculate_air_density psy t2 hr2
                        (calculate_pressure_from_altitude altitude) = none →
                    process_file psy sheet = none)))))))) := by
  constructor
  · intro h
    simp [process_file, h]
  · intro a f rd rm rρ cd h1
    refine ⟨fun h2 => by simp [process_file, h1, h2], ?_⟩
    intro t1 rh1 c1 h2
    refine ⟨fun h3 => by simp [process_file, h1, h2, h3], ?_⟩
    intro w1 h3
    refine ⟨fun h4 => by simp [process_file, h1, h2, h3, h4], ?_⟩
    intro hr1 dp1 cr1 vp1 me1 sv1 ds1 h4
    refine ⟨fun h5 => by simp [process_file, h1, h2, h3, h4, h5], ?_⟩
    intro d1 h5
    refine ⟨fun h6 => by simp [process_file, h1, h2, h3, h4, h5, h6], ?_⟩
    intro t2 rh2 c2 h6
    refine ⟨fun h7 => by simp [process_file, h1, h2, h3, h4, h5, h6, h7], ?_⟩
    intro w2 h7
    refine ⟨fun h8 => by simp [process_file, h1, h2, h3, h4, h5, h6, h7, h8], ?_⟩
    intro hr2 dp2 cr2 vp2 me2 sv2 ds2 h8 h9
    simp [process_file, h1, h2, h3, h4, h5, h6, h7, h8, h9]

/-- Claim C2 (witness): a mid-pipeline failure discarded silently — on the
all-numeric worksheet the geometry cells and the inlet rows read
successfully, then the wet-bulb call raises, and process_file returns none. -/
theorem process_file_discards_failures_witness :
    (get_altitude_and_airflow sheetOk = some (1, 1, 1, 1, 1, 1) ∧
      unpack3 (read_excel_data sheetOk 3 8 3) = some (1, 1, 1) ∧
      calculate_wet_bulb_temperature psyArb 1 1
        (calculate_pressure_from_altitude 1) = none) ∧
    process_file psyArb sheetOk = none :=
  ⟨⟨rfl, rfl, rfl⟩,
    (((process_file_discards_failures psyArb sheetOk).2
      1 1 1 1 1 1 rfl).2 1 1 1 rfl).1 rfl⟩

/-- Claim C2 (counterexample): on a worksheet whose altitude cell is
non-numeric, the first sub-step raises and process_file returns none: the
caller receives no report, no error kind and no offending field name —
nothing distinguishes this failure from any other, refuting "surfaces the
originating error kind to the caller". -/
theorem process_file_silent_failure_counterexample :
    process_file psyArb sheetBad = none := rfl

/-- Claim C8: whenever process_file produces a report, its mass flow is the
outlet moist-air density times the airflow converted L/s→m³/s, and each
energy flux is the respective station's moist-air enthalpy times that single
mass flow. -/
theorem process_file_mass_energy_flux (psy : Psychrolib)
    (sheet : Nat → Nat → CellValue) (r : Report)
    (h : process_file psy sheet = some r) :
    r.mass_flow = r.air_density_outlet * (r.air_flow / 1000) ∧
    r.energy_flux_inlet = r.moist_air_enthalpy_inlet * r.mass_flow ∧
    r.energy_flux_outlet = r.moist_air_enthalpy_outlet * r.mass_flow := by
  simp only [process_file] at h
  repeat' split at h
  all_goals try exact Option.noConfusion h
  injection h with h
  subst h
  exact ⟨by simp [balance], by simp [balance, calculate_energy_flux],
    by simp [balance, calculate_energy_flux]⟩

/-- Claim C8 (witness): a full successful run of process_file, on the
all-numeric worksheet with a Psychrolib record on which every call returns. -/
theorem process_file_mass_energy_flux_witness :
    ∃ r : Report, process_file psyOk sheetOk = some r ∧
      (r.mass_flow = r.air_density_outlet * (r.air_flow / 1000) ∧
        r.energy_flux_inlet = r.moist_air_enthalpy_inlet * r.mass_flow ∧
        r.energy_flux_outlet = r.moist_air_enthalpy_outlet * r.mass_flow) :=
  ⟨_, rfl, process_file_mass_energy_flux psyOk sheetOk _ rfl⟩

/-- Claim C4: at relative humidity 100% the wet-bulb computation returns the
dry-bulb temperature itself (exactly, hence within 1e-4 °C): the spec-modelled
WetBulbSolver short-circuits to T_db, and T_db is the exact solution of the
solver's defining equation there — the adiabatic-saturation humidity ratio at
T_wb = T_db equals the humidity ratio of saturated air at T_db, for every
saturation model.  The source wrapper calculate_wet_bulb_temperature passes
exactly 100/100 = 1 to the external solver. -/
theorem wet_bulb_saturated (svp : ℝ → ℝ) (psy : Psychrolib) (T_db P : ℝ)
    (h : (2501 : ℝ) - 2.326 * T_db ≠ 0) :
    wet_bulb svp T_db 100 P = .ok T_db ∧
    adiabaticSatHumRatio svp T_db T_db P = humRatioFromRelHum svp T_db 100 P ∧
    calculate_wet_bulb_temperature psy T_db 100 P
      = psy.GetTWetBulbFromRelHum T_db 1 P := by
  refine ⟨?_, ?_, ?_⟩
  · simp [wet_bulb]
  · simp only [adiabaticSatHumRatio, humRatioFromRelHum]
    rw [show (100 : ℝ) / 100 * svp T_db = svp T_db by norm_num]
    rw [sub_self, mul_zero, sub_zero]
    rw [show (2501 : ℝ) + 1.86 * T_db - 4.186 * T_db = 2501 - 2.326 * T_db by ring]
    exact mul_div_cancel_left₀ _ h
  · simp only [calculate_wet_bulb_temperature]
    rw [show (100 : ℝ) / 100 = 1 by norm_num]

/-- Claim C4 (witness): the saturation theorem at T_db = 25 °C and
P = 101325 Pa with a concrete saturation model. -/
theorem wet_bulb_saturated_witness :
    ((2501 : ℝ) - 2.326 * 25 ≠ 0) ∧
    (wet_bulb svpConst 25 100 101325 = .ok 25 ∧
      adiabaticSatHumRatio svpConst 25 25 101325
        = humRatioFromRelHum svpConst 25 100 101325 ∧
      calculate_wet_bulb_temperature psyArb 25 100 101325
        = psyArb.GetTWetBulbFromRelHum 25 1 101325) :=
  ⟨by norm_num, wet_bulb_saturated svpConst psyArb 25 101325 (by norm_num)⟩

end
